import Mathlib

/-!
Verification of the NeuroAgent index-pool provisioner and knowledge-base
subsystem.  The Python source is shallowly embedded: each `def` below mirrors
one function of the repository (module and line references are given in the
doc comments), with database sessions replaced by explicit `DBState` values,
blocking cloud calls by explicit outcome parameters, and raised exceptions by
`Except` results.  The relational schema module (`schema/schema.py`) is
imported by the application but absent from the source tree; its record shapes
are reconstructed from the spec (section 3) and from the columns the
application code reads and writes.
-/

/-- Status enum of a vector index row, from `ProvisionerStatusEnum` in
`app/database/schema.py` (the same enum the missing `schema/schema.py`
re-exports). -/
inductive ProvisionerStatusEnum
  | PROVISIONING
  | AVAILABLE
  | ASSIGNED
  | DESTROYED
  | CLEANUP
  | FAILED
deriving DecidableEq, Repr

/-- Modelled from the spec (section 3): one row of the `vector_indexes` table.
Time stamps are integers measured in minutes. -/
structure VectorIndex where
  id : Nat
  index_arn : String
  bucket_arn : String
  status : ProvisionerStatusEnum
  created_at : Int
deriving DecidableEq, Repr

/-- Modelled from the spec (section 3): one row of the knowledge-base table.
`index_id` is the foreign key to `VectorIndex.id`. -/
structure KnowledgeBase where
  id : Nat
  user_id : Nat
  index_id : Nat
  name : String
deriving DecidableEq, Repr

/-- Modelled from the spec (section 3): a membership row linking a document to
a knowledge base. -/
structure KnowledgeBaseDocument where
  id : Nat
  knowledge_base_id : Nat
  document_id : Nat
deriving DecidableEq, Repr

/-- The relational state the embedded operations act on: the three tables the
provisioner and the KB repository touch, plus the identity counter for new
knowledge-base ids. -/
structure DBState where
  indexes : List VectorIndex
  kbs : List KnowledgeBase
  kb_docs : List KnowledgeBaseDocument
  next_kb_id : Nat
deriving DecidableEq, Repr

/-- Python-level failure outcomes that the embedded functions can surface.
`attributeError` stands for `AttributeError`, `notImplementedError` for
`NotImplementedError`, `noResultFound` for SQLAlchemy `NoResultFound`,
`notFoundException` for a botocore `ClientError` whose code reports a missing
remote resource, `sqsMessageError` for `SqsMessageError`, and `runtimeError`
for `RuntimeError`. -/
inductive PyError
  | attributeError
  | notImplementedError
  | noResultFound
  | notFoundException
  | sqsMessageError
  | runtimeError
deriving DecidableEq, Repr

/-- Error taxonomy of the KB repository, using the stable names of spec
section 7.  `NoCapacity` is the `RuntimeError("no available vector indexes
found")` raised by `create_kb_db`, `NotFound` the propagated `NoResultFound`
of `delete_kb_db`, and `Inconsistency` the `RuntimeError` raised when a KB has
no associated vector index. -/
inductive KbError
  | NoCapacity
  | NotFound
  | Inconsistency
deriving DecidableEq, Repr

/- ----------------------------------------------------------------------
Pool statistics: `get_index_pool_stats`, app/database/vector_index.py 13-138.
---------------------------------------------------------------------- -/

/-- Modelled from the spec (section 3, PoolStats): the pydantic response model
`PoolStats` is imported from `app.models.api`, where no such class is defined
in the source tree; its fields are those the constructor call at
app/database/vector_index.py lines 127-134 populates. -/
structure PoolStats where
  message : String
  available_count : Nat
  provisioning_count : Nat
  failed_count : Nat
  cleanup_count : Nat
  destroyed_count : Nat
deriving DecidableEq, Repr

/-- Number of index rows satisfying a predicate (the `func.sum(case(...))`
aggregates of the stats query). -/
def count_indexes (s : DBState) (p : VectorIndex → Bool) : Nat :=
  (s.indexes.filter p).length

/-- The single result row of the aggregate statement in
`get_index_pool_stats`, with the labels given by `.label(...)` in the
query. -/
structure CountsRow where
  total : Nat
  available_count : Nat
  provisioning_count : Nat
  failed_count : Nat
  cleanup_count : Nat
  destroyed_count : Nat
deriving DecidableEq, Repr

/-- Attribute access on the result row: a label defined by the query yields
its value, any other attribute name raises `AttributeError` (SQLAlchemy `Row`
objects expose exactly the selected labels). -/
def counts_row_attr (c : CountsRow) (attr_name : String) : Except PyError Nat :=
  if attr_name = "total" then .ok c.total
  else if attr_name = "available_count" then .ok c.available_count
  else if attr_name = "provisioning_count" then .ok c.provisioning_count
  else if attr_name = "failed_count" then .ok c.failed_count
  else if attr_name = "cleanup_count" then .ok c.cleanup_count
  else if attr_name = "destroyed_count" then .ok c.destroyed_count
  else .error .attributeError

/-- `get_index_pool_stats` (app/database/vector_index.py 13-138).  Faithful
points: (1) the branch taken when `time_threshold` is True is the one WITHOUT
the `created_at` freshness filter, and the `else` branch is the one WITH it
(lines 16-117); (2) after executing the statement the code reads
`counts.provisioing_count` (line 122) — a label the query never defines, so
the read raises `AttributeError`, which the `except` clause re-raises.
`time_threshold_minutes` stands for the `TIME_THRESHOLD` configuration
constant (its module is absent from the source tree; spec section 5 calls it
T_stuck) and `now` for `get_current_time()`. -/
def get_index_pool_stats (s : DBState) (time_threshold : Bool)
    (now time_threshold_minutes : Int) : Except PyError PoolStats := do
  let counts : CountsRow :=
    if time_threshold then
      { total := s.indexes.length
        available_count := count_indexes s (fun v => v.status == .AVAILABLE)
        provisioning_count := count_indexes s (fun v => v.status == .PROVISIONING)
        failed_count := count_indexes s (fun v => v.status == .FAILED)
        cleanup_count := count_indexes s (fun v => v.status == .CLEANUP)
        destroyed_count := count_indexes s (fun v => v.status == .DESTROYED) }
    else
      let current_time_threshold := now - time_threshold_minutes
      { total := s.indexes.length
        available_count := count_indexes s (fun v => v.status == .AVAILABLE)
        provisioning_count := count_indexes s
          (fun v => v.status == .PROVISIONING
            && decide (current_time_threshold ≤ v.created_at))
        failed_count := count_indexes s (fun v => v.status == .FAILED)
        cleanup_count := count_indexes s (fun v => v.status == .CLEANUP)
        destroyed_count := count_indexes s (fun v => v.status == .DESTROYED) }
  let available_count ← counts_row_attr counts "available_count"
  let provisioning_count ← counts_row_attr counts "provisioing_count"
  let failed_count ← counts_row_attr counts "failed_count"
  let cleanup_count ← counts_row_attr counts "cleanup_count"
  let destroyed_count ← counts_row_attr counts "destroyed_count"
  .ok { message := "successfully fetched pool stats"
        available_count := available_count
        provisioning_count := provisioning_count
        failed_count := failed_count
        cleanup_count := cleanup_count
        destroyed_count := destroyed_count }

/- ----------------------------------------------------------------------
Cloud adapter: `delete_vector_index`, app/aws/client.py 324-332.
---------------------------------------------------------------------- -/

/-- The remote S3 Vectors service, reduced to the set of existing index ARNs.
`delete_index` removes an existing index and raises a not-found `ClientError`
for a missing one. -/
def s3vectors_delete_index (remote : List String) (index_arn : String) :
    Except PyError (List String) :=
  if index_arn ∈ remote then .ok (remote.erase index_arn)
  else .error .notFoundException

/-- `AwsClientManager.delete_vector_index` (app/aws/client.py 324-332): the
`except` clause logs and re-raises every exception unchanged — in particular
the not-found outcome is NOT converted into success (contrast
`individual_delete_object`, lines 185-188, which returns True on
`NoSuchKey`). -/
def delete_vector_index (remote : List String) (index_arn : String) :
    Except PyError (List String) :=
  match s3vectors_delete_index remote index_arn with
  | .ok r => .ok r
  | .error e => .error e

/- ----------------------------------------------------------------------
Name generation: app/utils/generate.py and provision_new_index phase 0,
app/provisioner/manager.py 34-38.
---------------------------------------------------------------------- -/

/-- `generate_random_string` (app/utils/generate.py 5-7): joins `length`
characters drawn by `random.choices`; the draws are passed in explicitly. -/
def generate_random_string (picks : List Char) : String :=
  String.mk picks

/-- The string Python produces when an f-string interpolates the function
object `generate_random_string` itself rather than a call of it: the fixed
`repr` of that function object, identical for every evaluation inside one
process. -/
def generate_random_string_function_repr : String :=
  "<function generate_random_string>"

/-- `generate_index_arn` (app/utils/generate.py 9-10). -/
def generate_index_arn (bucket_arn index_name : String) : String :=
  bucket_arn ++ "/index/" ++ index_name

/-- The `index_name` computed at app/provisioner/manager.py line 35:
the source reads `f"{generate_random_string}"`, interpolating the function
object without calling it, so the randomness (`seed`) is never consulted. -/
def provision_index_name (seed : Nat) : String :=
  generate_random_string_function_repr

/-- The `index_arn` computed at app/provisioner/manager.py lines 36-38 for one
invocation of `provision_new_index` (parameterised by the random seed that
invocation would have used). -/
def provision_index_arn (bucket_arn : String) (seed : Nat) : String :=
  generate_index_arn bucket_arn (provision_index_name seed)

/- ----------------------------------------------------------------------
`provision_new_index`, app/provisioner/manager.py 34-97.
---------------------------------------------------------------------- -/

/-- Observable effects of one `provision_new_index` run, in order: database
writes and remote cloud calls. -/
inductive ProvAction
  | db_insert_provisioning (index_arn : String)
  | remote_create_index (index_name : String)
  | db_delete_row (id : Nat)
  | db_mark_available (id : Nat)
  | db_insert_failed (index_arn : String)
  | remote_delete_index (index_arn : String)
deriving DecidableEq, Repr

/-- Environment of one `provision_new_index` run: the configured bucket ARN,
the random seed, and the outcomes of the fallible external steps (phase A
insert, phase B remote create, and whether the PROVISIONING row is still
present when phase C runs). -/
structure ProvisionEnv where
  bucket_arn : String
  seed : Nat
  insert_ok : Bool
  create_ok : Bool
  row_present_at_finalize : Bool
deriving DecidableEq, Repr

/-- `ProvisionManager.provision_new_index` (app/provisioner/manager.py 34-97),
returning the trace of effects and the outcome.  Phase A (41-54): insert a
PROVISIONING row or re-raise.  Phase B (56-83): call `create_vector_index`; on
failure delete the PROVISIONING row in a fresh transaction and re-raise.
Phase C (85-97): load the row by id; if it is missing, raise
`RuntimeError(...)` — the source inserts no FAILED row and issues no remote
delete on that path; otherwise set the status to AVAILABLE.  `row_id` is the
id the database assigned to the inserted row. -/
def provision_new_index (env : ProvisionEnv) (row_id : Nat) :
    List ProvAction × Except PyError Unit :=
  let index_name := provision_index_name env.seed
  let index_arn := generate_index_arn env.bucket_arn index_name
  if env.insert_ok = false then
    ([], .error .runtimeError)
  else if env.create_ok = false then
    ([ProvAction.db_insert_provisioning index_arn,
      ProvAction.remote_create_index index_name,
      ProvAction.db_delete_row row_id], .error .runtimeError)
  else if env.row_present_at_finalize then
    ([ProvAction.db_insert_provisioning index_arn,
      ProvAction.remote_create_index index_name,
      ProvAction.db_mark_available row_id], .ok ())
  else
    ([ProvAction.db_insert_provisioning index_arn,
      ProvAction.remote_create_index index_name], .error .runtimeError)

/- ----------------------------------------------------------------------
KB creation: `create_kb_db`, app/database/knowledge_base.py 18-61.
---------------------------------------------------------------------- -/

/-- The rows the reservation statement ranges over: `SELECT ... WHERE status =
AVAILABLE` (app/database/knowledge_base.py 21-29). -/
def availableIndexes (s : DBState) : List VectorIndex :=
  s.indexes.filter (fun v => v.status == .AVAILABLE)

/-- The UPDATE flushed for `available_index.status = ASSIGNED` (line 35):
every row whose id matches is written with status ASSIGNED, all other rows are
untouched. -/
def assign_index_status (rid : Nat) (l : List VectorIndex) : List VectorIndex :=
  l.map (fun v => if v.id == rid then { v with status := .ASSIGNED } else v)

/-- `create_kb_db` (app/database/knowledge_base.py 18-61), one transaction:
select one AVAILABLE row (`ORDER BY random() LIMIT 1 FOR UPDATE SKIP
LOCKED`) — the nondeterministic `random()` pick is exposed as the `choice`
argument — set its status to ASSIGNED and insert the KnowledgeBase row
referencing it; with no AVAILABLE row, `scalar_one()` raises `NoResultFound`,
the transaction is rolled back and the `NoCapacity` error (`RuntimeError("no
available vector indexes found")`) is raised. -/
def create_kb_db (s : DBState) (user_id : Nat) (name : String) (choice : Nat) :
    Except KbError (DBState × KnowledgeBase) :=
  match availableIndexes s with
  | [] => .error .NoCapacity
  | a :: rest =>
      let row := (a :: rest).get
        ⟨choice % (a :: rest).length, Nat.mod_lt choice (Nat.succ_pos rest.length)⟩
      let kb : KnowledgeBase :=
        { id := s.next_kb_id, user_id := user_id, index_id := row.id, name := name }
      .ok ({ s with
              indexes := assign_index_status row.id s.indexes,
              kbs := s.kbs ++ [kb],
              next_kb_id := s.next_kb_id + 1 }, kb)

/-- Number of AVAILABLE rows of a state. -/
def countAvailable (s : DBState) : Nat :=
  (s.indexes.filter (fun v => v.status == .AVAILABLE)).length

/- Concurrency model for the reservation primitive.  `FOR UPDATE SKIP LOCKED`
is modelled at the granularity the database provides: a transaction first
locks one row that is both AVAILABLE and unlocked (rows locked by other
in-flight transactions are skipped, and the in-transaction status write is
invisible to others until commit), then either commits — making the ASSIGNED
status and the KB insert visible atomically — or rolls back, releasing the
lock.  `committed` records which transaction succeeded against which row. -/

/-- Global state seen by concurrent `create_kb_db` callers: the committed
status of every row id, the row locks held by in-flight transactions, and the
log of committed reservations as (transaction id, row id) pairs. -/
structure ResTxnState where
  status : Nat → ProvisionerStatusEnum
  locked_by : Nat → Option Nat
  committed : List (Nat × Nat)

/-- One scheduler step of the concurrent reservation system. -/
inductive ResStep : ResTxnState → ResTxnState → Prop
  | reserve (s : ResTxnState) (t r : Nat)
      (hstatus : s.status r = .AVAILABLE)
      (hfree : s.locked_by r = none) :
      ResStep s { s with locked_by := Function.update s.locked_by r (some t) }
  | commit (s : ResTxnState) (t r : Nat)
      (hlock : s.locked_by r = some t) :
      ResStep s { status := Function.update s.status r .ASSIGNED,
                  locked_by := Function.update s.locked_by r none,
                  committed := (t, r) :: s.committed }
  | rollback (s : ResTxnState) (t r : Nat)
      (hlock : s.locked_by r = some t) :
      ResStep s { s with locked_by := Function.update s.locked_by r none }

/-- Reachability under `ResStep`. -/
inductive ResReachable (init : ResTxnState) : ResTxnState → Prop
  | refl : ResReachable init init
  | step {s s2 : ResTxnState} :
      ResReachable init s → ResStep s s2 → ResReachable init s2

/-- Invariant of the reservation system: locked rows still read AVAILABLE
(their new status is uncommitted), committed rows read ASSIGNED, and no row
id occurs twice in the commit log. -/
def ResInv (s : ResTxnState) : Prop :=
  (∀ r t, s.locked_by r = some t → s.status r = .AVAILABLE)
  ∧ (∀ p ∈ s.committed, s.status p.2 = .ASSIGNED)
  ∧ (s.committed.map Prod.snd).Nodup

/-- A state with no AVAILABLE row, for the NoCapacity branch. -/
def dbStateNoAvailable : DBState :=
  { indexes := [{ id := 1, index_arn := "arn:b/index/x", bucket_arn := "arn:b",
                  status := .ASSIGNED, created_at := 0 }],
    kbs := [], kb_docs := [], next_kb_id := 1 }

/-- A state with two AVAILABLE rows, for the successful-reservation branch. -/
def dbStateTwoAvail : DBState :=
  { indexes := [{ id := 1, index_arn := "arn:b/index/x", bucket_arn := "arn:b",
                  status := .AVAILABLE, created_at := 0 },
                { id := 2, index_arn := "arn:b/index/y", bucket_arn := "arn:b",
                  status := .AVAILABLE, created_at := 0 }],
    kbs := [], kb_docs := [], next_kb_id := 5 }

/-- Initial concurrent state: every row AVAILABLE, no locks, no commits. -/
def resInitDemo : ResTxnState :=
  { status := fun _ => .AVAILABLE, locked_by := fun _ => none, committed := [] }

/-- After transaction 10 locks row 0. -/
def resDemo1 : ResTxnState :=
  { resInitDemo with
      locked_by := Function.update resInitDemo.locked_by 0 (some 10) }

/-- After transaction 10 commits its reservation of row 0. -/
def resDemo2 : ResTxnState :=
  { status := Function.update resDemo1.status 0 .ASSIGNED,
    locked_by := Function.update resDemo1.locked_by 0 none,
    committed := (10, 0) :: resDemo1.committed }

/-- The knowledge-base row produced by `create_kb_db` on `dbStateTwoAvail`
with user 1, name "a" and random pick 0. -/
def kbW : KnowledgeBase := { id := 5, user_id := 1, index_id := 1, name := "a" }

/-- The state produced by that reservation: index 1 ASSIGNED, index 2 still
AVAILABLE, the new KB row appended. -/
def sW : DBState :=
  { indexes := [{ id := 1, index_arn := "arn:b/index/x", bucket_arn := "arn:b",
                  status := .ASSIGNED, created_at := 0 },
                { id := 2, index_arn := "arn:b/index/y", bucket_arn := "arn:b",
                  status := .AVAILABLE, created_at := 0 }],
    kbs := [kbW], kb_docs := [], next_kb_id := 6 }

/- ----------------------------------------------------------------------
KB deletion: `delete_kb_db`, app/database/knowledge_base.py 140-168.
---------------------------------------------------------------------- -/

/-- The value of the ORM attribute `kb.vector_index` after the assignment at
app/database/knowledge_base.py line 152: the loaded relationship target is
replaced by a bare status enum. -/
inductive VectorIndexAttrValue
  | row_ref (v : VectorIndex)
  | enum_value (e : ProvisionerStatusEnum)
deriving DecidableEq, Repr

/-- `delete_kb_db` (app/database/knowledge_base.py 140-168), one transaction:
select the KB of (user_id, kb_id) with its `vector_index` relationship loaded
(`NoResultFound` propagates as `NotFound` when absent); if the relationship is
empty raise the inconsistency `RuntimeError`; otherwise line 152 executes
`kb.vector_index = ProvisionerStatusEnum.CLEANUP` — rebinding the local ORM
relationship attribute to the enum value; no write of `VectorIndex.status`
exists on this path and the `indexes` table is returned unchanged — then the
join rows of the KB and the KB row itself are deleted. -/
def delete_kb_db (s : DBState) (user_id kb_id : Nat) : Except KbError DBState :=
  match s.kbs.find? (fun kb => kb.id == kb_id && kb.user_id == user_id) with
  | none => .error .NotFound
  | some kb =>
      match s.indexes.find? (fun v => v.id == kb.index_id) with
      | none => .error .Inconsistency
      | some _ =>
          let kb_vector_index : VectorIndexAttrValue := .enum_value .CLEANUP
          let _ := kb_vector_index
          .ok { s with
                kbs := s.kbs.filter (fun k => !(k.id == kb.id)),
                kb_docs := s.kb_docs.filter
                  (fun d => !(d.knowledge_base_id == kb_id)),
                indexes := s.indexes }

/-- A state with one KB (id 1, user 7) referencing index 5 (ASSIGNED) and one
join row, for exercising `delete_kb_db`. -/
def dbStateOneKb : DBState :=
  { indexes := [{ id := 5, index_arn := "arn:b/index/x", bucket_arn := "arn:b",
                  status := .ASSIGNED, created_at := 0 }],
    kbs := [{ id := 1, user_id := 7, index_id := 5, name := "kb" }],
    kb_docs := [{ id := 3, knowledge_base_id := 1, document_id := 9 }],
    next_kb_id := 2 }

/- ----------------------------------------------------------------------
Cleanup candidates: `get_cleanup_indexes`, app/provisioner/manager.py 183-222.
---------------------------------------------------------------------- -/

/-- The expression `KnowledgeBase.vector_index.is_(None)`
(app/provisioner/manager.py line 198).  `vector_index` is a relationship
attribute (the source loads it with `selectinload` and it lives on the schema
module absent from the source tree); SQLAlchemy relationship comparators
implement only `==`, `!=`, `any`, `has` and `contains`, and every other
column operator — `is_` among them — falls through to the base
`operate`, which raises `NotImplementedError`.  Had it been supported, it
would have denoted the joined-row null check returned on success here. -/
def relationship_is_none (s : DBState) : Except PyError (VectorIndex → Bool) :=
  .error .notImplementedError

/-- `ProvisionManager.get_cleanup_indexes` (app/provisioner/manager.py
183-222): builds the three filter disjuncts — FAILED, stuck PROVISIONING
(`created_at < now − 10` minutes), and CLEANUP with no referencing KB via
`KnowledgeBase.vector_index.is_(None)` — and runs the outer-joined SELECT.
Constructing the third disjunct raises `NotImplementedError` (see
`relationship_is_none`), which the `except` clause logs and re-raises, so the
query itself is never executed. -/
def get_cleanup_indexes (s : DBState) (now : Int) :
    Except PyError (List VectorIndex) := do
  let stuck_threshold := now - 10
  let failed_indexes := fun (v : VectorIndex) => v.status == .FAILED
  let stuck_provisioning_indexes := fun (v : VectorIndex) =>
    v.status == .PROVISIONING && decide (v.created_at < stuck_threshold)
  let unlinked_cleanup_indexes ← relationship_is_none s
  .ok (s.indexes.filter (fun v =>
    failed_indexes v || stuck_provisioning_indexes v
      || (v.status == .CLEANUP && unlinked_cleanup_indexes v)))

/- ----------------------------------------------------------------------
Reconciliation: `reconcile_vector_indexes`, app/provisioner/manager.py 99-141.
---------------------------------------------------------------------- -/

/-- The Python value bound by `pool_stats = get_index_pool_stats(db=db,
time_threshold=True)` at app/provisioner/manager.py line 103: the call of an
async function WITHOUT `await` yields a coroutine object, not a `PoolStats`.
The constructor keeps the un-awaited computation. -/
inductive PyPoolStatsValue
  | coroutine_object (run : Unit → Except PyError PoolStats)
  | pool_stats_object (ps : PoolStats)

/-- Python attribute access `pool_stats.available_count`: defined on a
`PoolStats` instance, an `AttributeError` on a coroutine object. -/
def pool_stats_attr_available_count : PyPoolStatsValue → Except PyError Nat
  | .pool_stats_object ps => .ok ps.available_count
  | .coroutine_object _ => .error .attributeError

/-- Python attribute access `pool_stats.provisioning_count`. -/
def pool_stats_attr_provisioning_count : PyPoolStatsValue → Except PyError Nat
  | .pool_stats_object ps => .ok ps.provisioning_count
  | .coroutine_object _ => .error .attributeError

/-- `ProvisionManager.reconcile_vector_indexes` (app/provisioner/manager.py
99-141), returning the number of provisioning tasks handed to the TaskGroup
when the cycle completes.  Line 103 calls `get_index_pool_stats` without
`await` (and line 102 also enters `SessionLocal` without calling it; the
embedding reads that line charitably), so line 105 accesses
`.available_count` on a coroutine object and raises `AttributeError` before
any task is spawned.  `min_pool` stands for the `MIN_INDEX_POOL` constant
(its module is absent from the source tree; spec section 5 has default 3). -/
def reconcile_vector_indexes (s : DBState) (now time_threshold_minutes : Int)
    (min_pool : Nat) : Except PyError Nat := do
  let pool_stats : PyPoolStatsValue :=
    .coroutine_object (fun _ => get_index_pool_stats s true now time_threshold_minutes)
  let available_count ← pool_stats_attr_available_count pool_stats
  let provisioning_count ← pool_stats_attr_provisioning_count pool_stats
  let total_count := available_count + provisioning_count
  let index_needed := if min_pool ≤ total_count then 0 else min_pool - total_count
  .ok index_needed

/- ----------------------------------------------------------------------
Trigger channels and worker wake-ups, app/provisioner/manager.py 31-32,
143-181 and 279-295.
---------------------------------------------------------------------- -/

/-- The `maxsize` of the trigger channels: both are built with
`asyncio.Queue()` (app/provisioner/manager.py 31-32), whose default
`maxsize=0` means the queue size is infinite and `put_nowait` never raises
`QueueFull`. -/
def asyncio_queue_maxsize : Nat := 0

/-- `ProvisionManager.trigger_reconciliation` (app/provisioner/manager.py
169-174): `put_nowait(True)`; the `except QueueFull: skip` branch runs only
when the queue is bounded and full. -/
def trigger_reconciliation (q : List Bool) : List Bool :=
  if asyncio_queue_maxsize ≠ 0 ∧ asyncio_queue_maxsize ≤ q.length then q
  else q ++ [true]

/-- `ProvisionManager.trigger_cleanup` (app/provisioner/manager.py 176-181):
identical channel discipline on the cleanup queue. -/
def trigger_cleanup (q : List Bool) : List Bool :=
  if asyncio_queue_maxsize ≠ 0 ∧ asyncio_queue_maxsize ≤ q.length then q
  else q ++ [true]

/-- K successive trigger posts through a given trigger function, while the
worker is not consuming. -/
def post_triggers (f : List Bool → List Bool) : Nat → List Bool → List Bool
  | 0, q => q
  | k + 1, q => post_triggers f k (f q)

/-- The drain loop `while not queue.empty(): queue.get_nowait()`
(app/provisioner/manager.py 157-159 and 287-289). -/
def drain_triggers : List Bool → List Bool
  | [] => []
  | _ :: rest => drain_triggers rest

/-- One wake-up of a worker loop (`reconcilation_worker` lines 150-167,
`cleanup_worker` lines 282-291): with an empty queue the worker stays blocked
on `get()` (`none`); otherwise it takes one trigger, drains the buffered
rest, and runs exactly one cycle — the returned pair is (cycles run after
this wake, queue afterwards). -/
def worker_wake (q : List Bool) : Option (Nat × List Bool) :=
  match q with
  | [] => none
  | _ :: rest => some (1, drain_triggers rest)

/- ----------------------------------------------------------------------
Ingestion endpoints, app/api/routes/ingestion.py 19-188.
---------------------------------------------------------------------- -/

/-- Modelled from the spec: `CreatedIngestionJob` as prepared by
`create_ingestion_job` (`app/database/ingestion.py`, absent from the source
tree) — the job id, target index ARN and the documents of the request, per
the queue-message shape of spec section 6 (documents reduced to their ids). -/
structure CreatedIngestionJob where
  ingestion_id : Nat
  index_arn : String
  kb_id : Nat
  user_id : Nat
  documents : List Nat
deriving DecidableEq, Repr

/-- Errors of `create_ingestion_job` caught by the ingestion routes. -/
inductive IngestionDbError
  | KnowledgebaseNotFound
  | DocsNotFound
  | OtherDbError
deriving DecidableEq, Repr

/-- Modelled from the spec: the outcome of `create_ingestion_job`
(`app/database/ingestion.py` is absent from the source tree).  The route
commits explicitly afterwards (lines 61 and 151), so the job is prepared in
the still-open transaction: on success the prepared row changes are carried
as a commit function `P → P` that is applied to the persisted state only by
`db.commit()`, and `db.rollback()` discards them. -/
def IngestionPrep (P : Type) := Except IngestionDbError (CreatedIngestionJob × (P → P))

/-- `ingest_documents` (app/api/routes/ingestion.py 25-103) over an abstract
persisted database state `P`: validate the request; prepare the ingestion job
in the open transaction; if the job lists documents, send the SQS message —
`except SqsMessageError: await db.rollback(); raise HTTPException(503)`
(lines 82-90) — and only then `await db.commit()` (line 61).  Returns the
persisted state and the HTTP status code. -/
def ingest_documents {P : Type} (persisted : P) (kb_id : Nat)
    (file_ids : List Nat) (prep : IngestionPrep P)
    (send_sqs_message : Except PyError Unit) : P × Nat :=
  if kb_id = 0 then (persisted, 400)
  else if file_ids = [] then (persisted, 400)
  else
    match prep with
    | .error .KnowledgebaseNotFound => (persisted, 404)
    | .error .DocsNotFound => (persisted, 404)
    | .error .OtherDbError => (persisted, 500)
    | .ok (result, commit_pending) =>
        if result.documents = [] then (commit_pending persisted, 201)
        else
          match send_sqs_message with
          | .error _ => (persisted, 503)
          | .ok _ => (commit_pending persisted, 201)

/-- `delete_ingested_data` (app/api/routes/ingestion.py 112-188): the same
transaction discipline as `ingest_documents` — rollback before the 503 on
`SqsMessageError` (lines 169-177), commit at line 151 only after the send —
with HTTP 200 on success. -/
def delete_ingested_data {P : Type} (persisted : P) (kb_id : Nat)
    (file_ids : List Nat) (prep : IngestionPrep P)
    (send_sqs_message : Except PyError Unit) : P × Nat :=
  if kb_id = 0 then (persisted, 400)
  else if file_ids = [] then (persisted, 400)
  else
    match prep with
    | .error .KnowledgebaseNotFound => (persisted, 404)
    | .error .DocsNotFound => (persisted, 404)
    | .error .OtherDbError => (persisted, 500)
    | .ok (result, commit_pending) =>
        if result.documents = [] then (commit_pending persisted, 200)
        else
          match send_sqs_message with
          | .error _ => (persisted, 503)
          | .ok _ => (commit_pending persisted, 200)

/- ----------------------------------------------------------------------
Theorems.
---------------------------------------------------------------------- -/

/-- The drain loop always empties the queue. -/
theorem drain_triggers_eq_nil (q : List Bool) : drain_triggers q = [] := by
  induction q with
  | nil => rfl
  | cons a rest ih => simpa [drain_triggers] using ih

/-- On an unbounded channel every trigger post appends one entry. -/
theorem trigger_post_appends (f : List Bool → List Bool)
    (hf : ∀ q, f q = q ++ [true]) (k : Nat) (q : List Bool) :
    post_triggers f k q = q ++ List.replicate k true := by
  induction k generalizing q with
  | zero => simp [post_triggers]
  | succ m ih =>
      simp only [post_triggers, hf, ih, List.append_assoc]
      simp [List.replicate_succ]

/-- Claim C4: the claim states that `get_index_pool_stats` returns a
`PoolStats` with the per-status counts, the freshness window applying when
`time_threshold=True`.  The code cannot return at all: it reads the attribute
`provisioing_count` (a typo) from the result row, which raises
`AttributeError` on every call — and in addition the branch WITH the
freshness filter is the `time_threshold=False` branch, the inverse of the
claim. -/
theorem get_index_pool_stats_always_raises (s : DBState) (time_threshold : Bool)
    (now time_threshold_minutes : Int) :
    get_index_pool_stats s time_threshold now time_threshold_minutes
      = .error .attributeError := by
  rfl

/-- Claim C5: the claim states that the remote index delete is idempotent,
not-found being treated as success.  In the code the not-found `ClientError`
is re-raised: deleting an index removes it remotely, and the repeated delete
of the same ARN then fails instead of succeeding. -/
theorem delete_vector_index_not_idempotent :
    delete_vector_index ["arn:aws:s3vectors:bucket/index/a"]
        "arn:aws:s3vectors:bucket/index/a"
      = .ok []
    ∧ delete_vector_index [] "arn:aws:s3vectors:bucket/index/a"
      = .error .notFoundException := by
  constructor
  · rfl
  · rfl

/-- Claim C6: the claim states that when the finalize step finds the
PROVISIONING row missing, the implementation either re-inserts a FAILED row
with the known `index_arn` or immediately issues `delete_index`.  Running the
code on exactly that input (remote create succeeded, row gone at finalize)
shows it does neither: the task only raises `RuntimeError`, its effect trace
containing no FAILED insert and no remote delete, so the orphan remote index
is left unreachable for cleanup. -/
theorem provision_finalize_missing_row_no_recovery :
    (provision_new_index
        { bucket_arn := "arn:bucket", seed := 0, insert_ok := true,
          create_ok := true, row_present_at_finalize := false } 1).2
      = .error .runtimeError
    ∧ ∀ a ∈ (provision_new_index
        { bucket_arn := "arn:bucket", seed := 0, insert_ok := true,
          create_ok := true, row_present_at_finalize := false } 1).1,
        (∀ arn, a ≠ ProvAction.db_insert_failed arn)
        ∧ (∀ arn, a ≠ ProvAction.remote_delete_index arn) := by
  constructor
  · rfl
  · intro a ha
    have h2 : a = ProvAction.db_insert_provisioning
          (generate_index_arn "arn:bucket" (provision_index_name 0))
        ∨ a = ProvAction.remote_create_index (provision_index_name 0) := by
      simpa [provision_new_index] using ha
    rcases h2 with rfl | rfl
    · exact ⟨fun arn h => ProvAction.noConfusion h,
        fun arn h => ProvAction.noConfusion h⟩
    · exact ⟨fun arn h => ProvAction.noConfusion h,
        fun arn h => ProvAction.noConfusion h⟩

/-- Claim C7: the claim states that every invocation of
`provision_new_index` generates a fresh random `index_name`, so distinct
invocations produce distinct `index_arn` values.  The source line
`index_name = f"{generate_random_string}"` interpolates the function object
without calling it, so every invocation in a process computes the same
`index_name` and hence the same `index_arn`: two invocations with different
random seeds collide. -/
theorem provision_index_arn_constant :
    provision_index_arn "arn:bucket" 0 = provision_index_arn "arn:bucket" 1
    ∧ ∀ seed1 seed2 : Nat, ∀ bucket : String,
        provision_index_arn bucket seed1 = provision_index_arn bucket seed2 := by
  exact ⟨rfl, fun _ _ _ => rfl⟩

/-- Claim C8 counterexample: the claim states that each trigger channel has
capacity 1 and that offering a trigger to a full channel is a no-op.  The
channels are created as `asyncio.Queue()` with the default `maxsize=0`
(unbounded): posting twice from empty leaves TWO buffered triggers on either
channel, so the second offer is not a no-op and the capacity is not 1. -/
theorem trigger_channel_not_capacity_one :
    asyncio_queue_maxsize = 0
    ∧ trigger_reconciliation (trigger_reconciliation []) = [true, true]
    ∧ trigger_cleanup (trigger_cleanup []) = [true, true] := by
  refine ⟨rfl, ?_, ?_⟩ <;> rfl

/-- Claim C8 as amended: the trigger channels are unbounded and every posted
trigger is enqueued, but the worker drains all buffered triggers after
receiving one, so for every K > 0, posting K triggers (through
`trigger_reconciliation` or `trigger_cleanup`) while the corresponding worker
is asleep still results in exactly one subsequent worker cycle after it
wakes, with the channel left empty. -/
theorem trigger_coalescing_drain (k : Nat) (hk : 0 < k) :
    worker_wake (post_triggers trigger_reconciliation k []) = some (1, [])
    ∧ worker_wake (post_triggers trigger_cleanup k []) = some (1, []) := by
  have hrec : ∀ q, trigger_reconciliation q = q ++ [true] := by
    intro q
    simp [trigger_reconciliation, asyncio_queue_maxsize]
  have hcl : ∀ q, trigger_cleanup q = q ++ [true] := by
    intro q
    simp [trigger_cleanup, asyncio_queue_maxsize]
  obtain ⟨m, rfl⟩ : ∃ m, k = m + 1 := ⟨k - 1, by omega⟩
  constructor
  · rw [trigger_post_appends _ hrec]
    simp [List.replicate_succ, worker_wake, drain_triggers_eq_nil]
  · rw [trigger_post_appends _ hcl]
    simp [List.replicate_succ, worker_wake, drain_triggers_eq_nil]

/-- Claim C8 witness: three triggers posted while the worker sleeps coalesce
into one cycle on both channels. -/
theorem trigger_coalescing_drain_witness :
    0 < 3
    ∧ (worker_wake (post_triggers trigger_reconciliation 3 []) = some (1, [])
       ∧ worker_wake (post_triggers trigger_cleanup 3 []) = some (1, [])) :=
  ⟨by decide, trigger_coalescing_drain 3 (by decide)⟩

/-- Claim C3: the claim states that `delete_kb_db` sets the referenced
VectorIndex status field to CLEANUP while deleting the KB and its join rows.
Evaluating the code on a user 7 owning KB 1 linked to index 5 (ASSIGNED):
the KB row and its join rows are deleted, but the index row comes out with
its status untouched — still ASSIGNED, not CLEANUP — because line 152 assigns
the enum to the `kb.vector_index` relationship attribute instead of to
`vector_index.status`. -/
theorem delete_kb_db_does_not_mark_index_cleanup :
    delete_kb_db dbStateOneKb 7 1
      = .ok { dbStateOneKb with kbs := [], kb_docs := [] }
    ∧ (∀ v ∈ ({ dbStateOneKb with kbs := [], kb_docs := [] } : DBState).indexes,
        v.status = .ASSIGNED ∧ v.status ≠ .CLEANUP) := by
  constructor
  · rfl
  · decide

/-- Claim C9: the claim states that `get_cleanup_indexes` returns exactly the
FAILED, stuck-PROVISIONING and orphan-CLEANUP rows.  The function can never
return any rows: building the orphan-CLEANUP disjunct evaluates
`KnowledgeBase.vector_index.is_(None)`, which raises `NotImplementedError`
for a relationship attribute, and the `except` clause re-raises it — every
call fails before the query runs, on every database state. -/
theorem get_cleanup_indexes_always_raises (s : DBState) (now : Int) :
    get_cleanup_indexes s now = .error .notImplementedError := by
  rfl

/-- Claim C2: the claim states that each reconciliation cycle reads pool
stats with the freshness window, computes the effective count and spawns
MIN_POOL − effective provisioning tasks.  The cycle can never get there:
line 103 calls `get_index_pool_stats` without `await`, so line 105 reads
`.available_count` off a coroutine object and raises `AttributeError` on
every invocation, before any provisioning task is spawned (and the callee
itself always raises, and its `time_threshold=True` branch is the one
WITHOUT the freshness filter). -/
theorem reconcile_vector_indexes_always_raises (s : DBState)
    (now time_threshold_minutes : Int) (min_pool : Nat) :
    reconcile_vector_indexes s now time_threshold_minutes min_pool
      = .error .attributeError := by
  rfl

/-- Claim C10: for both ingestion endpoints, when the SQS send fails after
the ingestion job was prepared in the open transaction, the transaction is
rolled back and the 503 response returned: the persisted state is exactly the
state before the request, for every abstract persisted state, prepared job
and pending-commit function. -/
theorem ingestion_rollback_on_sqs_error {P : Type} (persisted : P)
    (kb_id : Nat) (file_ids : List Nat) (job : CreatedIngestionJob)
    (commit_pending : P → P) (e : PyError)
    (hkb : kb_id ≠ 0) (hfiles : file_ids ≠ [])
    (hdocs : job.documents ≠ []) :
    ingest_documents persisted kb_id file_ids
        (.ok (job, commit_pending)) (.error e) = (persisted, 503)
    ∧ delete_ingested_data persisted kb_id file_ids
        (.ok (job, commit_pending)) (.error e) = (persisted, 503) := by
  constructor
  · simp [ingest_documents, hkb, hfiles, hdocs]
  · simp [delete_ingested_data, hkb, hfiles, hdocs]

/-- Claim C10 witness: a concrete request (kb 3, one file, one prepared
document) against persisted state 0, with the SQS send failing: both
endpoints answer 503 and leave the persisted state at 0 even though the
pending commit function would have changed it. -/
theorem ingestion_rollback_on_sqs_error_witness :
    ((3 : Nat) ≠ 0 ∧ ([4] : List Nat) ≠ [] ∧
      (CreatedIngestionJob.mk 11 "arn:i" 3 7 [9]).documents ≠ [])
    ∧ (ingest_documents (0 : Nat) 3 [4]
          (.ok (CreatedIngestionJob.mk 11 "arn:i" 3 7 [9], fun p => p + 1))
          (.error .sqsMessageError) = (0, 503)
       ∧ delete_ingested_data (0 : Nat) 3 [4]
          (.ok (CreatedIngestionJob.mk 11 "arn:i" 3 7 [9], fun p => p + 1))
          (.error .sqsMessageError) = (0, 503)) :=
  ⟨⟨by decide, by decide, by decide⟩,
    ingestion_rollback_on_sqs_error 0 3 [4]
      (CreatedIngestionJob.mk 11 "arn:i" 3 7 [9]) (fun p => p + 1)
      .sqsMessageError (by decide) (by decide) (by decide)⟩

/-- Membership in the AVAILABLE selection unpacks to table membership plus
the status condition. -/
theorem mem_availableIndexes {s : DBState} {v : VectorIndex}
    (h : v ∈ availableIndexes s) : v ∈ s.indexes ∧ v.status = .AVAILABLE := by
  have h2 := List.mem_filter.mp h
  exact ⟨h2.1, by simpa using h2.2⟩

/-- With no duplicate ids, exactly one row of the table carries the id of a
member row. -/
theorem filter_id_length_one {l : List VectorIndex} {v : VectorIndex}
    (hnd : (l.map VectorIndex.id).Nodup) (hv : v ∈ l) :
    (l.filter (fun w => w.id == v.id)).length = 1 := by
  induction l with
  | nil => cases hv
  | cons a t ih =>
      rw [List.map_cons, List.nodup_cons] at hnd
      rcases List.mem_cons.mp hv with rfl | hvt
      · have ht : List.filter (fun w => w.id == v.id) t = [] := by
          refine List.filter_eq_nil_iff.mpr ?_
          intro w hw
          simp only [beq_iff_eq]
          intro hEq
          exact hnd.1 (hEq ▸ List.mem_map_of_mem VectorIndex.id hw)
        simp [List.filter_cons, ht]
      · have hne : ¬((a.id == v.id) = true) := by
          simp only [beq_iff_eq]
          intro hEq
          exact hnd.1 (hEq ▸ List.mem_map_of_mem VectorIndex.id hvt)
        simp [List.filter_cons, hne, ih hnd.2 hvt]

/-- With no duplicate ids, rows with equal ids are equal. -/
theorem nodup_id_eq {l : List VectorIndex} {v w : VectorIndex}
    (hnd : (l.map VectorIndex.id).Nodup) (hv : v ∈ l) (hw : w ∈ l)
    (h : w.id = v.id) : w = v :=
  List.inj_on_of_nodup_map hnd hw hv h

/-- The assignment UPDATE leaves a table without the target id unchanged. -/
theorem assign_index_status_of_not_mem {l : List VectorIndex} {rid : Nat}
    (h : ∀ w ∈ l, w.id ≠ rid) : assign_index_status rid l = l := by
  induction l with
  | nil => rfl
  | cons a t ih =>
      have ha : ¬((a.id == rid) = true) := by
        simpa using h a (List.mem_cons_self a t)
      have ht := ih (fun w hw => h w (List.mem_cons_of_mem a hw))
      simp only [assign_index_status, List.map_cons, if_neg ha]
      simp only [assign_index_status] at ht
      rw [ht]

/-- The reservation UPDATE removes exactly one row from the AVAILABLE count
when exactly one row carries the target id and every row with that id is
AVAILABLE. -/
theorem countAvail_assign (l : List VectorIndex) (rid : Nat)
    (h1 : (l.filter (fun w => w.id == rid)).length = 1)
    (h2 : ∀ w ∈ l, w.id = rid → w.status = .AVAILABLE) :
    ((assign_index_status rid l).filter
        (fun v => v.status == .AVAILABLE)).length + 1
      = (l.filter (fun v => v.status == .AVAILABLE)).length := by
  induction l with
  | nil => simp at h1
  | cons a t ih =>
      by_cases ha : a.id = rid
      · have hstat : a.status = .AVAILABLE :=
          h2 a (List.mem_cons_self a t) ha
        have hab : (a.id == rid) = true := by simpa using ha
        have ht0 : (t.filter (fun w => w.id == rid)).length = 0 := by
          have h1c := h1
          rw [List.filter_cons, if_pos hab, List.length_cons] at h1c
          omega
        have hfix : assign_index_status rid t = t := by
          apply assign_index_status_of_not_mem
          intro w hw hEq
          have hmem : w ∈ t.filter (fun w => w.id == rid) :=
            List.mem_filter.mpr ⟨hw, by simpa using hEq⟩
          rw [List.length_eq_zero.mp ht0] at hmem
          cases hmem
        have hrw : assign_index_status rid (a :: t)
            = { a with status := ProvisionerStatusEnum.ASSIGNED } :: t := by
          simp only [assign_index_status, List.map_cons, if_pos hab]
          simp only [assign_index_status] at hfix
          rw [hfix]
        rw [hrw, List.filter_cons, List.filter_cons]
        rw [if_neg (by simp), if_pos (by simpa using hstat)]
        simp
      · have hab : ¬((a.id == rid) = true) := by simpa using ha
        have ht1 : (t.filter (fun w => w.id == rid)).length = 1 := by
          have h1c := h1
          rw [List.filter_cons, if_neg hab] at h1c
          exact h1c
        have ih2 := ih ht1 (fun w hw => h2 w (List.mem_cons_of_mem a hw))
        have hrw : assign_index_status rid (a :: t)
            = a :: assign_index_status rid t := by
          simp only [assign_index_status, List.map_cons, if_neg hab]
        rw [hrw, List.filter_cons, List.filter_cons]
        by_cases hs : (a.status == ProvisionerStatusEnum.AVAILABLE) = true
        · rw [if_pos hs, if_pos hs, List.length_cons, List.length_cons]
          omega
        · rw [if_neg hs, if_neg hs]
          exact ih2

/-- One step of the concurrent reservation system preserves the invariant. -/
theorem ResInv_step {s s2 : ResTxnState} (hinv : ResInv s)
    (hstep : ResStep s s2) : ResInv s2 := by
  obtain ⟨h1, h2, h3⟩ := hinv
  cases hstep with
  | reserve t r hstatus hfree =>
      refine ⟨?_, h2, h3⟩
      intro r2 t2 hl
      dsimp only at hl ⊢
      by_cases hr : r2 = r
      · subst hr
        exact hstatus
      · rw [Function.update_noteq hr] at hl
        exact h1 r2 t2 hl
  | commit t r hlock =>
      have hstat_r : s.status r = .AVAILABLE := h1 r t hlock
      have hnotin : r ∉ s.committed.map Prod.snd := by
        intro hmem
        obtain ⟨p, hp, hpr⟩ := List.mem_map.mp hmem
        have h4 := h2 p hp
        rw [hpr] at h4
        rw [h4] at hstat_r
        exact ProvisionerStatusEnum.noConfusion hstat_r
      refine ⟨?_, ?_, ?_⟩
      · intro r2 t2 hl
        dsimp only at hl ⊢
        by_cases hr : r2 = r
        · subst hr
          rw [Function.update_same] at hl
          cases hl
        · rw [Function.update_noteq hr] at hl
          rw [Function.update_noteq hr]
          exact h1 r2 t2 hl
      · intro p hp
        dsimp only at hp ⊢
        rcases List.mem_cons.mp hp with rfl | hp2
        · simp [Function.update_same]
        · by_cases hpr : p.2 = r
          · rw [hpr, Function.update_same]
          · rw [Function.update_noteq hpr]
            exact h2 p hp2
      · dsimp only
        simp only [List.map_cons]
        exact List.nodup_cons.mpr ⟨hnotin, h3⟩
  | rollback t r hlock =>
      refine ⟨?_, h2, h3⟩
      intro r2 t2 hl
      dsimp only at hl ⊢
      by_cases hr : r2 = r
      · subst hr
        rw [Function.update_same] at hl
        cases hl
      · rw [Function.update_noteq hr] at hl
        exact h1 r2 t2 hl

/-- Claim C1: the `create_kb_db` reservation.  Part 1: with no AVAILABLE row
the call fails with NoCapacity and no state is returned (the transaction is
rolled back).  Part 2: on success, under distinct row ids, some row that was
AVAILABLE is now ASSIGNED, the inserted KB row references exactly that row in
the same transaction, all other rows are written unchanged
(`assign_index_status` touches only the picked id), and the AVAILABLE count
drops by exactly one.  Part 3: in the lock-level model of `FOR UPDATE SKIP
LOCKED` (a transaction can only lock an unlocked AVAILABLE row, and only a
lock holder can commit), any number of concurrent callers from any initial
unlocked state never commit two reservations against the same index row. -/
theorem create_kb_db_reservation_correct :
    (∀ (s : DBState) (u choice : Nat) (n : String),
       availableIndexes s = [] →
       create_kb_db s u n choice = .error .NoCapacity)
    ∧ (∀ (s : DBState) (u choice : Nat) (n : String) (s2 : DBState)
         (kb : KnowledgeBase),
       (s.indexes.map VectorIndex.id).Nodup →
       create_kb_db s u n choice = .ok (s2, kb) →
       ∃ v, v ∈ s.indexes ∧ v.status = .AVAILABLE ∧ kb.index_id = v.id
         ∧ kb.user_id = u ∧ kb.name = n ∧ kb.id = s.next_kb_id
         ∧ s2.indexes = assign_index_status v.id s.indexes
         ∧ s2.kbs = s.kbs ++ [kb]
         ∧ countAvailable s2 + 1 = countAvailable s)
    ∧ (∀ init s2 : ResTxnState,
       (∀ r, init.locked_by r = none) →
       init.committed = [] →
       ResReachable init s2 →
       (s2.committed.map Prod.snd).Nodup
       ∧ ∀ t1 t2 r, (t1, r) ∈ s2.committed → (t2, r) ∈ s2.committed →
           t1 = t2) := by
  refine ⟨?_, ?_, ?_⟩
  · intro s u choice n h
    unfold create_kb_db
    rw [h]
  · intro s u choice n s2 kb hnd hok
    unfold create_kb_db at hok
    cases hA : availableIndexes s with
    | nil =>
        rw [hA] at hok
        cases hok
    | cons a rest =>
        rw [hA] at hok
        dsimp only at hok
        simp only [Except.ok.injEq, Prod.mk.injEq] at hok
        obtain ⟨hs2, hkb⟩ := hok
        subst hs2
        subst hkb
        have hmemav : (a :: rest).get
            ⟨choice % (a :: rest).length,
              Nat.mod_lt choice (Nat.succ_pos rest.length)⟩
            ∈ availableIndexes s := by
          rw [hA]
          exact List.get_mem (a :: rest) _ _
        have hv := mem_availableIndexes hmemav
        refine ⟨(a :: rest).get
          ⟨choice % (a :: rest).length,
            Nat.mod_lt choice (Nat.succ_pos rest.length)⟩,
          hv.1, hv.2, rfl, rfl, rfl, rfl, rfl, rfl, ?_⟩
        have h1 := filter_id_length_one hnd hv.1
        have h2b : ∀ w ∈ s.indexes,
            w.id = ((a :: rest).get
              ⟨choice % (a :: rest).length,
                Nat.mod_lt choice (Nat.succ_pos rest.length)⟩).id →
            w.status = .AVAILABLE := by
          intro w hw hEq
          rw [nodup_id_eq hnd hv.1 hw hEq]
          exact hv.2
        exact countAvail_assign s.indexes _ h1 h2b
  · intro init s2 hlk hcm hreach
    have hinv : ResInv s2 := by
      induction hreach with
      | refl =>
          refine ⟨?_, ?_, ?_⟩
          · intro r t h
            rw [hlk r] at h
            cases h
          · intro p hp
            rw [hcm] at hp
            cases hp
          · rw [hcm]
            exact List.nodup_nil
      | step hr hstep ih => exact ResInv_step ih hstep
    refine ⟨hinv.2.2, ?_⟩
    intro t1 t2 r hm1 hm2
    have heq := List.inj_on_of_nodup_map hinv.2.2 hm1 hm2 rfl
    exact congrArg Prod.fst heq

/-- Claim C1 witness: the NoCapacity branch on a state with no AVAILABLE
row; a concrete successful reservation on a two-row pool (row 1 is picked,
assigned and referenced by the new KB, the AVAILABLE count drops from 2 to
1); and a concrete two-step concurrent trace (transaction 10 reserves then
commits row 0) whose commit log has no duplicated row. -/
theorem create_kb_db_reservation_correct_witness :
    create_kb_db dbStateNoAvailable 1 "a" 0 = .error .NoCapacity
    ∧ (∃ v, v ∈ dbStateTwoAvail.indexes ∧ v.status = .AVAILABLE
        ∧ kbW.index_id = v.id ∧ kbW.user_id = 1 ∧ kbW.name = "a"
        ∧ kbW.id = dbStateTwoAvail.next_kb_id
        ∧ sW.indexes = assign_index_status v.id dbStateTwoAvail.indexes
        ∧ sW.kbs = dbStateTwoAvail.kbs ++ [kbW]
        ∧ countAvailable sW + 1 = countAvailable dbStateTwoAvail)
    ∧ ((resDemo2.committed.map Prod.snd).Nodup
       ∧ ∀ t1 t2 r, (t1, r) ∈ resDemo2.committed →
           (t2, r) ∈ resDemo2.committed → t1 = t2) :=
  ⟨create_kb_db_reservation_correct.1 dbStateNoAvailable 1 0 "a" (by decide),
   create_kb_db_reservation_correct.2.1 dbStateTwoAvail 1 0 "a" sW kbW
     (by decide) rfl,
   create_kb_db_reservation_correct.2.2 resInitDemo resDemo2
     (fun r => rfl) rfl
     (ResReachable.step
       (ResReachable.step ResReachable.refl
         (ResStep.reserve resInitDemo 10 0 rfl rfl))
       (ResStep.commit resDemo1 10 0 rfl))⟩
